import Mathlib

/-!
Shallow embedding of `src/omnikey_rs/src/structs.rs`: the OMNIKEY 5025CL
reader session (`Reader`) and response-frame decoding (`ReaderData`).

Conventions of the embedding:
- Rust machine integers become `Nat`, with an explicit `% 2 ^ w` exactly
  where the Rust type truncates (the `u16` and `u64` shift results).
- A Rust panic (out-of-bounds slice index, `.unwrap()` on an `Err`,
  overflowing shift amount on `u16`) is modelled as `Option.none`; a
  function that cannot panic keeps its plain return type.
- The fallible `rusb` calls the code consumes (`device_descriptor()`,
  `open()`, `write_bulk`, `read_bulk`, `DeviceList::new()`) are passed in
  as explicit `Option`/`Except String` outcomes, one per call site, so the
  pure control flow around them is preserved byte for byte.
-/

namespace Omnikey

set_option autoImplicit false

/-- Rust `&[u8; 17]`: a fixed 17-byte response buffer, bytes as `Nat`. -/
abbrev Buf := Fin 17 → Nat

/-- All entries of the buffer fit in a `u8`. -/
abbrev ByteBuf (data : Buf) : Prop := ∀ i, data i < 256

/-- The USB Vendor ID for the OMNIKEY 5025CL (`OMNIKEY_VENDOR_ID`). -/
def OMNIKEY_VENDOR_ID : Nat := 0x076B

/-- The USB Product ID for the OMNIKEY 5025CL (`OMNIKEY_PRODUCT_ID`). -/
def OMNIKEY_PRODUCT_ID : Nat := 0x502A

/-- `pub struct ReaderData`: the decoded response frame. -/
structure ReaderData where
  message_type : Nat
  length : Nat
  slot : Nat
  seq : Nat
  status : Nat
  error : Nat
  chain_parameter : Nat
  valid : Bool
  id : Nat
  adpu_status : Nat
deriving DecidableEq, Repr

/-- The `u32` length field of `ReaderData::new`:
`u32::from(data[4]) << 24 | u32::from(data[3]) << 16 | u32::from(data[2]) << 8 | u32::from(data[1])`. -/
def decodeLength (data : Buf) : Nat :=
  data 4 <<< 24 ||| data 3 <<< 16 ||| data 2 <<< 8 ||| data 1

/-- `ReaderData::new(data: &[u8; 17])`.

`none` models a Rust panic. Two panic sources exist in the `length >= 2`
branch: `data[ind1]` / `data[ind2]` with an index past 16 (out of bounds in
every build profile), and a `u16` shift amount of 16 or more (Rust declares
this overflow a program error; the debug profile checks it). The line

`adpu_status = u16::from(data[ind1]) << 8 + u16::from(data[ind2]);`

parses, by Rust operator precedence, as `data[ind1] << (8 + data[ind2])`,
truncated to 16 bits; the embedding reproduces that parse. -/
def ReaderData.new (data : Buf) : Option ReaderData :=
  let length := decodeLength data
  if length = 7 then
    -- for i in 0..5 { id += u64::from(data[10 + i]) << ((4 - i) * 8); } unrolled
    let id := (data 10 <<< 32 + data 11 <<< 24 + data 12 <<< 16 +
      data 13 <<< 8 + data 14 <<< 0) % 2 ^ 64
    let adpu_status := (data 15 <<< 8 ||| data 16) % 2 ^ 16
    some ⟨data 0, length, data 5, data 6, data 7, data 8, data 9, true, id, adpu_status⟩
  else if 2 ≤ length then
    -- let ind1 = length - 2; let ind2 = length - 1;  (u32 → usize cannot fail)
    if h1 : length - 2 < 17 then
      if h2 : length - 1 < 17 then
        if 8 + data ⟨length - 1, h2⟩ < 16 then
          some ⟨data 0, length, data 5, data 6, data 7, data 8, data 9, false, 0,
            (data ⟨length - 2, h1⟩ <<< (8 + data ⟨length - 1, h2⟩)) % 2 ^ 16⟩
        else none
      else none
    else none
  else
    some ⟨data 0, length, data 5, data 6, data 7, data 8, data 9, false, 0, 0⟩

/-- A USB device descriptor, reduced to the two fields the code reads. -/
structure DeviceDescriptor where
  vendor_id : Nat
  product_id : Nat
deriving DecidableEq, Repr

/-- One attached USB device as `Reader::new` observes it:
the outcome of `device.device_descriptor()` (`none` = `Err(_)`, skipped)
and the outcome of `device.open()` (the `Nat` stands for the raw handle). -/
structure UsbDevice where
  descriptor_result : Option DeviceDescriptor
  open_result : Except String Nat

/-- `pub struct Reader`. -/
structure Reader where
  descriptor : DeviceDescriptor
  device : UsbDevice
  handle : Nat

/-- The device-scan loop of `Reader::new`: walk the enumeration, skip
devices whose descriptor cannot be read, stop at the first whose vendor
and product ids match, keeping the device together with its descriptor
(the loop's `target` / `target_desc` pair). -/
def locate : List UsbDevice → Option (UsbDevice × DeviceDescriptor)
  | [] => none
  | device :: rest =>
    match device.descriptor_result with
    | none => locate rest
    | some device_desc =>
      if device_desc.vendor_id == OMNIKEY_VENDOR_ID &&
          device_desc.product_id == OMNIKEY_PRODUCT_ID then
        some (device, device_desc)
      else locate rest

/-- The predicate of the spec, §4.1: a device matches when its descriptor
is readable and carries the configured vendor/product pair. Used to state
that `locate` returns the first match of the enumeration. -/
def deviceMatches (device : UsbDevice) : Bool :=
  match device.descriptor_result with
  | none => false
  | some device_desc =>
    device_desc.vendor_id == OMNIKEY_VENDOR_ID &&
      device_desc.product_id == OMNIKEY_PRODUCT_ID

/-- `Reader::new()`. `enum_result` is the outcome of `DeviceList::new()`;
the source applies `.unwrap()` to it, so an `Err` there is a panic
(`none`). After a successful enumeration the function always returns a
`Result` value (`some`). -/
def Reader.new (enum_result : Except String (List UsbDevice)) :
    Option (Except String Reader) :=
  match enum_result with
  | Except.error _ => none
  | Except.ok devices =>
    some (match locate devices with
      | none => Except.error "Could not find Omnikey Reader."
      | some (target, target_desc) =>
        match target.open_result with
        | Except.ok h => Except.ok ⟨target_desc, target, h⟩
        | Except.error e => Except.error ("Error opening handle: " ++ e))

/-- The fixed 13-byte legacy-mode command frame (`cmd` in
`Reader::set_legacy_ccid_mode`). -/
def Reader.legacyCmd : List Nat :=
  [0xFF, 0x70, 0x07, 0x6B, 0x07,
   0xA2, 0x05, 0xA1, 0x03, 0x8B,
   0x01, 0x00, 0x00]

/-- The fixed 15-byte "Get Data" command frame (`cmd` in
`Reader::check_for_rfid_card`). -/
def Reader.getDataCmd : List Nat :=
  [0x6F, 0x05, 0x00, 0x00, 0x00,
   0x00, 0x00, 0x01, 0x00, 0x00,
   0xFF, 0xCA, 0x00, 0x00, 0x00]

/-- `Reader::set_legacy_ccid_mode(&self)`.

`write_result` is the outcome of the single `self.handle.write_bulk(0x01,
&cmd, timeout)` call (`Ok` carries the byte count accepted by the
endpoint); `read_result` is the outcome of the single
`self.handle.read_bulk(0x82, &mut buf, timeout)` call (`Ok` carries the
bytes the device placed in the buffer). The source performs exactly one
write and one read — there is no retry loop around either call. -/
def Reader.set_legacy_ccid_mode (write_result : Except String Nat)
    (read_result : Except String (List Nat)) : Except String Unit :=
  match write_result with
  | Except.error e => Except.error ("Error sending legacy code: " ++ e)
  | Except.ok bytes_sent =>
    if bytes_sent ≠ Reader.legacyCmd.length then
      Except.error ("Expected to send " ++ toString Reader.legacyCmd.length ++
        " bytes, actually sent " ++ toString bytes_sent)
    else
      match read_result with
      | Except.error e =>
        Except.error ("Error reading return value of Legacy command: " ++ e)
      | Except.ok _ => Except.ok ()

/-- `Reader::check_for_rfid_card(&self)`.

Parameters as in `Reader.set_legacy_ccid_mode`. The 17-byte `buf` starts
zero-initialized and `read_bulk` fills its prefix with the received
bytes, so the decoded buffer is the received bytes padded with zeroes;
the byte count returned by the read is never examined (`Ok(_) => {}`).
`none` models a panic escaping from `ReaderData::new`. -/
def Reader.check_for_rfid_card (write_result : Except String Nat)
    (read_result : Except String (List Nat)) :
    Option (Except String ReaderData) :=
  match write_result with
  | Except.error e =>
    some (Except.error ("Error sending \"Get Data\" message: " ++ e))
  | Except.ok bytes_sent =>
    if bytes_sent ≠ Reader.getDataCmd.length then
      some (Except.error ("Expected to send " ++ toString Reader.getDataCmd.length ++
        " bytes, sent " ++ toString bytes_sent))
    else
      match read_result with
      | Except.error e =>
        some (Except.error ("Error reading \"Get Data\" output: " ++ e))
      | Except.ok received =>
        let buf : Buf := fun i => received.getD i 0
        (ReaderData.new buf).map Except.ok

/-- The all-zero 17-byte buffer (the initial state of `buf`). -/
def zeroBuf : Buf := fun _ => 0

/-- Spec §8, concrete scenario 1: the well-formed `length = 7` frame. -/
def scenario1Buf : Buf := fun i =>
  [0x80, 0x07, 0, 0, 0, 0, 0, 0, 0, 0, 0x01, 0x02, 0x03, 0x04, 0x05, 0x90, 0x00].getD i 0

/-- A frame with `length = 8` whose status bytes sit at offsets 6 and 7
(`buf[6] = 0x90`, `buf[7] = 0x01`), exercising the `length >= 2` branch. -/
def len8Buf : Buf := fun i =>
  [0, 8, 0, 0, 0, 0, 0x90, 0x01, 0, 0, 0, 0, 0, 0, 0, 0, 0].getD i 0

/-- A frame whose decoded length is 18, sending both derived status
offsets (16 and 17) at or past the end of the 17-byte buffer. -/
def len18Buf : Buf := fun i =>
  [0, 18].getD i 0

/-- C1: the claim reads the `length ∈ [2, 6] ∪ [8, 15]` branch as
`adpu_status = (buf[length-2] << 8) | buf[length-1]`. The code's line
`u16::from(data[ind1]) << 8 + u16::from(data[ind2])` actually parses as
`data[ind1] << (8 + data[ind2])`: on the frame with `length = 8`,
`buf[6] = 0x90`, `buf[7] = 0x01` the code yields `0x90 << 9 = 0x2000`
(truncated to 16 bits), not the claimed `0x90 << 8 ||| 0x01 = 0x9001`. -/
theorem readerData_new_adpu_shift_precedence_bug :
    ReaderData.new len8Buf =
      some ⟨0, 8, 0, 0x90, 0x01, 0, 0, false, 0, 0x2000⟩ ∧
    (0x2000 : Nat) ≠ 0x90 <<< 8 ||| 0x01 := by decide

/-- C2: `ReaderData::new` does not always return a value. On a 17-byte
buffer whose decoded length field is 18 the `length >= 2` branch indexes
`data[17]` on a `[u8; 17]`, an out-of-bounds panic (modelled `none`). -/
theorem readerData_new_panics_on_length_18 :
    ReaderData.new len18Buf = none := by decide

/-- C5: when the decoded length field is below 2, neither decoding branch
runs: the function returns (no panic) with `valid = false`, `id = 0` and
`adpu_status = 0`, the header bytes copied from their fixed offsets. -/
theorem readerData_new_short_length_is_zeroed (data : Buf)
    (h : decodeLength data < 2) :
    ReaderData.new data =
      some ⟨data 0, decodeLength data, data 5, data 6, data 7, data 8,
        data 9, false, 0, 0⟩ := by
  have h7 : ¬ decodeLength data = 7 := by omega
  have h2 : ¬ 2 ≤ decodeLength data := by omega
  unfold ReaderData.new
  simp [h7, h2]

/-- Witness for C5 at the all-zero buffer: decoded length 0. -/
theorem readerData_new_short_length_is_zeroed_witness :
    decodeLength zeroBuf < 2 ∧
    ReaderData.new zeroBuf = some ⟨0, 0, 0, 0, 0, 0, 0, false, 0, 0⟩ :=
  ⟨by decide, readerData_new_short_length_is_zeroed zeroBuf (by decide)⟩

/-- C6: both command frames are fixed literals — byte for byte the
sequences of spec §6, of lengths 13 and 15, with no runtime parameters
(the definitions take no arguments). -/
theorem command_frames_are_the_fixed_literals :
    Reader.legacyCmd =
      [0xFF, 0x70, 0x07, 0x6B, 0x07, 0xA2, 0x05, 0xA1, 0x03, 0x8B, 0x01, 0x00, 0x00] ∧
    Reader.legacyCmd.length = 13 ∧
    Reader.getDataCmd =
      [0x6F, 0x05, 0x00, 0x00, 0x00, 0x00, 0x00, 0x01, 0x00, 0x00, 0xFF, 0xCA, 0x00, 0x00, 0x00] ∧
    Reader.getDataCmd.length = 15 :=
  ⟨rfl, rfl, rfl, rfl⟩

/-- C9: not every failure surfaces as an `Err` value. `Reader::new` calls
`DeviceList::new().unwrap()`, so a failing device enumeration is a panic
(modelled `none`), not an `Err`. -/
theorem reader_new_panics_on_enumeration_failure :
    Reader.new (Except.error "libusb enumeration failed") = none := rfl

/-- C3: on every 17-byte frame of bytes whose decoded length field is 7,
decoding succeeds with `valid = true`, the identifier is the big-endian
combination of bytes 10–14 (byte `10 + i` at bit position `(4 - i) * 8`)
and the APDU status is `buf[15] << 8 ||| buf[16]`. -/
theorem readerData_new_length7_decodes_card (data : Buf) (hb : ByteBuf data)
    (h7 : decodeLength data = 7) :
    ReaderData.new data =
      some ⟨data 0, 7, data 5, data 6, data 7, data 8, data 9, true,
        data 10 <<< 32 + data 11 <<< 24 + data 12 <<< 16 + data 13 <<< 8 + data 14,
        data 15 <<< 8 ||| data 16⟩ := by
  have hid : (data 10 <<< 32 + data 11 <<< 24 + data 12 <<< 16 +
      data 13 <<< 8 + data 14 <<< 0) % 2 ^ 64 =
      data 10 <<< 32 + data 11 <<< 24 + data 12 <<< 16 + data 13 <<< 8 + data 14 := by
    have h10 := hb 10
    have h11 := hb 11
    have h12 := hb 12
    have h13 := hb 13
    have h14 := hb 14
    rw [Nat.shiftLeft_zero, Nat.mod_eq_of_lt]
    simp only [Nat.shiftLeft_eq]
    norm_num
    omega
  have h16 : data 16 < 2 ^ 8 := by have := hb 16; omega
  have h15 : data 15 < 2 ^ 8 := by have := hb 15; omega
  have hadpu : (data 15 <<< 8 ||| data 16) % 2 ^ 16 =
      data 15 <<< 8 ||| data 16 := by
    refine Nat.mod_eq_of_lt ?_
    have hpow : (2 : Nat) ^ 16 = 2 ^ (8 + 8) := by norm_num
    rw [hpow]
    exact Nat.append_lt h16 h15
  unfold ReaderData.new
  simp only [h7, hid, hadpu]
  rfl

/-- Witness for C3 at spec §8 scenario 1: the frame
`[0x80, 0x07, 0, 0, 0, 0, 0, 0, 0, 0, 0x01, 0x02, 0x03, 0x04, 0x05, 0x90, 0x00]`
decodes to `valid = true`, id `0x0102030405`, APDU status `0x9000`. -/
theorem readerData_new_length7_decodes_card_witness :
    ByteBuf scenario1Buf ∧ decodeLength scenario1Buf = 7 ∧
    ReaderData.new scenario1Buf =
      some ⟨0x80, 7, 0, 0, 0, 0, 0, true, 0x0102030405, 0x9000⟩ := by
  refine ⟨by decide, by decide, ?_⟩
  have h := readerData_new_length7_decodes_card scenario1Buf (by decide) (by decide)
  rw [h]
  decide

/-- C4: whatever branch the length field selects, any returned
`ReaderData` carries the header fields from the fixed offsets: message
type from byte 0, the 32-bit little-endian length from bytes 1–4, slot,
sequence, status, error and chain parameter from bytes 5–9. -/
theorem readerData_new_header_fields_are_fixed (data : Buf) (r : ReaderData)
    (h : ReaderData.new data = some r) :
    r.message_type = data 0 ∧
    r.length = (data 4 <<< 24 ||| data 3 <<< 16 ||| data 2 <<< 8 ||| data 1) ∧
    r.slot = data 5 ∧ r.seq = data 6 ∧ r.status = data 7 ∧
    r.error = data 8 ∧ r.chain_parameter = data 9 := by
  unfold ReaderData.new at h
  dsimp only at h
  split at h
  · injection h with h
    subst h
    exact ⟨rfl, rfl, rfl, rfl, rfl, rfl, rfl⟩
  · split at h
    · split at h
      · split at h
        · split at h
          · injection h with h
            subst h
            exact ⟨rfl, rfl, rfl, rfl, rfl, rfl, rfl⟩
          · exact Option.noConfusion h
        · exact Option.noConfusion h
      · exact Option.noConfusion h
    · injection h with h
      subst h
      exact ⟨rfl, rfl, rfl, rfl, rfl, rfl, rfl⟩

/-- Witness for C4 at the all-zero buffer. -/
theorem readerData_new_header_fields_are_fixed_witness :
    ReaderData.new zeroBuf = some ⟨0, 0, 0, 0, 0, 0, 0, false, 0, 0⟩ ∧
    ((0 : Nat) = zeroBuf 0 ∧
      (0 : Nat) = (zeroBuf 4 <<< 24 ||| zeroBuf 3 <<< 16 ||| zeroBuf 2 <<< 8 ||| zeroBuf 1) ∧
      (0 : Nat) = zeroBuf 5 ∧ (0 : Nat) = zeroBuf 6 ∧ (0 : Nat) = zeroBuf 7 ∧
      (0 : Nat) = zeroBuf 8 ∧ (0 : Nat) = zeroBuf 9) :=
  ⟨by decide,
    readerData_new_header_fields_are_fixed zeroBuf
      ⟨0, 0, 0, 0, 0, 0, 0, false, 0, 0⟩ (by decide)⟩

/-- C10 counterexample: a successful bulk IN read that fills only the two
bytes `[0x00, 0x12]` (fewer than 17) does not produce an `Ok`: the padded
buffer decodes a length field of 18 and `ReaderData::new` panics on the
out-of-bounds index 17 (modelled `none`). -/
theorem check_for_rfid_card_short_read_can_panic :
    Reader.check_for_rfid_card (Except.ok 15) (Except.ok [0x00, 0x12]) = none := rfl

/-- C7: in both `set_legacy_ccid_mode` and `check_for_rfid_card`, a
successful bulk OUT write whose accepted byte count differs from the
frame length yields an error value naming the expected and actual counts
(the single write is never retried — each function performs exactly one
`write_bulk` call), and a failed write likewise yields an error value. -/
theorem short_write_yields_error_value (b : Nat)
    (rd : Except String (List Nat)) (e : String) :
    (b ≠ 13 → Reader.set_legacy_ccid_mode (Except.ok b) rd =
      Except.error ("Expected to send " ++ toString (13 : Nat) ++
        " bytes, actually sent " ++ toString b)) ∧
    (b ≠ 15 → Reader.check_for_rfid_card (Except.ok b) rd =
      some (Except.error ("Expected to send " ++ toString (15 : Nat) ++
        " bytes, sent " ++ toString b))) ∧
    Reader.set_legacy_ccid_mode (Except.error e) rd =
      Except.error ("Error sending legacy code: " ++ e) ∧
    Reader.check_for_rfid_card (Except.error e) rd =
      some (Except.error ("Error sending \"Get Data\" message: " ++ e)) := by
  refine ⟨fun hb => ?_, fun hb => ?_, rfl, rfl⟩
  · have hl : Reader.legacyCmd.length = 13 := rfl
    unfold Reader.set_legacy_ccid_mode
    rw [hl]
    dsimp only
    rw [if_pos hb]
  · have hl : Reader.getDataCmd.length = 15 := rfl
    unfold Reader.check_for_rfid_card
    rw [hl]
    dsimp only
    rw [if_pos hb]

/-- Witness for C7: an endpoint accepting 5 of the frame's bytes. -/
theorem short_write_yields_error_value_witness :
    Reader.set_legacy_ccid_mode (Except.ok 5) (Except.ok []) =
      Except.error "Expected to send 13 bytes, actually sent 5" ∧
    Reader.check_for_rfid_card (Except.ok 5) (Except.ok []) =
      some (Except.error "Expected to send 15 bytes, sent 5") := by
  have h := short_write_yields_error_value 5 (Except.ok []) ""
  have e1 : ("Expected to send " ++ toString (13 : Nat) ++
      " bytes, actually sent " ++ toString (5 : Nat)) =
      "Expected to send 13 bytes, actually sent 5" := by decide
  have e2 : ("Expected to send " ++ toString (15 : Nat) ++
      " bytes, sent " ++ toString (5 : Nat)) =
      "Expected to send 15 bytes, sent 5" := by decide
  refine ⟨?_, ?_⟩
  · rw [h.1 (by decide), e1]
  · rw [h.2.1 (by decide), e2]

/-- C8: `Reader::new` scans the enumeration in order, skipping devices
whose descriptor cannot be read: the device it settles on is exactly the
first of the list satisfying `deviceMatches` (readable descriptor with
vendor id 0x076B and product id 0x502A), and when no device matches it
returns the `Err` value `"Could not find Omnikey Reader."`. -/
theorem reader_new_picks_first_matching_device (devs : List UsbDevice) :
    Option.map Prod.fst (locate devs) = devs.find? deviceMatches ∧
    (devs.find? deviceMatches = none →
      Reader.new (Except.ok devs) =
        some (Except.error "Could not find Omnikey Reader.")) := by
  have hmap : ∀ ds : List UsbDevice,
      Option.map Prod.fst (locate ds) = ds.find? deviceMatches := by
    intro ds
    induction ds with
    | nil => rfl
    | cons d rest ih =>
      cases hd : d.descriptor_result with
      | none =>
        have hm : deviceMatches d = false := by simp [deviceMatches, hd]
        simp [locate, hd, List.find?_cons, hm, ih]
      | some desc =>
        have hm : deviceMatches d =
            (desc.vendor_id == OMNIKEY_VENDOR_ID &&
              desc.product_id == OMNIKEY_PRODUCT_ID) := by
          simp [deviceMatches, hd]
        cases hv : (desc.vendor_id == OMNIKEY_VENDOR_ID &&
            desc.product_id == OMNIKEY_PRODUCT_ID) with
        | true => simp [locate, hd, hv, List.find?_cons, hm]
        | false => simp [locate, hd, hv, List.find?_cons, hm, ih]
  refine ⟨hmap devs, fun hf => ?_⟩
  have h1 := hmap devs
  rw [hf] at h1
  have h2 : locate devs = none := by
    cases hl : locate devs with
    | none => rfl
    | some p => rw [hl] at h1; exact Option.noConfusion h1
  simp [Reader.new, h2]

/-- A sample enumeration: one device with an unreadable descriptor and
one readable device with a foreign vendor/product pair; no match. -/
def sampleEnum : List UsbDevice :=
  [⟨none, Except.ok 0⟩, ⟨some ⟨0x1234, 0x5678⟩, Except.ok 1⟩]

/-- Witness for C8: scanning `sampleEnum` finds no match, and `Reader::new`
returns the device-not-found error value. -/
theorem reader_new_picks_first_matching_device_witness :
    sampleEnum.find? deviceMatches = none ∧
    Reader.new (Except.ok sampleEnum) =
      some (Except.error "Could not find Omnikey Reader.") :=
  ⟨rfl, (reader_new_picks_first_matching_device sampleEnum).2 rfl⟩

/-- C10 (amended): after a full 15-byte write, `check_for_rfid_card`
never inspects the byte count of a successful bulk IN read: whatever
prefix the read fills, the result is `ReaderData::new` applied to that
prefix padded with the buffer's zero initialisation — in particular an
empty read yields `Ok` with `length = 0`, `valid = false` and all fields
zero. (A short read can still end in a decoding panic, see the
counterexample.) -/
theorem check_for_rfid_card_ignores_read_count (received : List Nat) :
    Reader.check_for_rfid_card (Except.ok 15) (Except.ok received) =
      (ReaderData.new (fun i => received.getD i 0)).map Except.ok ∧
    Reader.check_for_rfid_card (Except.ok 15) (Except.ok []) =
      some (Except.ok ⟨0, 0, 0, 0, 0, 0, 0, false, 0, 0⟩) :=
  ⟨rfl, rfl⟩

end Omnikey
